import Mathlib

/-!
Shallow embedding of the disruption-intel transcript adapters.

Source files embedded here:
* `src/api/transcript.py` — serverless function: `fetch_transcript`,
  `handler.do_GET`, `handler.do_POST`, guarded by the module-level
  `HAS_TRANSCRIPT_API` flag.
* `src/scripts/fetch-transcript.py` — CLI script: its own `fetch_transcript`
  (no availability guard; the library is imported unconditionally, so the
  script only runs when the capability is available) and the `__main__` block.
* `src/transcript-service/app.py` — Flask service: `get_transcript`, whose
  try-block inlines the same normalization.

The external `youtube_transcript_api` capability is modelled as an injected
function from a video id to an outcome: an ordered list of raw entries
(`FetchedTranscriptSnippet` objects with `start`, `duration`, `text`) or a
raised exception carrying a message and an exception-class name.  Python
floats are modelled as `Rat`: the code never computes with them, it only
passes them through, so any value type with decidable equality is faithful.
JSON serialization (`json.dumps`) is modelled key-for-key in source order,
parametrized by the float-rendering function `f : Rat → String` that stands
for the Python runtime's float repr.
-/

namespace DisruptionIntel

/-- Python `str.split()` delimiter set (the ASCII whitespace characters;
`split()` with no argument splits on runs of whitespace). -/
def isPySpace (c : Char) : Bool :=
  c == ' ' || c == '\t' || c == '\n' || c == '\r' || c == '\x0b' || c == '\x0c'

/-- Helper for `pySplit`: scan the characters, accumulating the current token
in reverse; whitespace ends the token, and empty tokens are dropped. -/
def pySplitAux : List Char → List Char → List String
  | [], acc => if acc.isEmpty then [] else [String.mk acc.reverse]
  | c :: cs, acc =>
    if isPySpace c then
      if acc.isEmpty then pySplitAux cs []
      else String.mk acc.reverse :: pySplitAux cs []
    else pySplitAux cs (c :: acc)

/-- Python `s.split()` with no argument: split on runs of whitespace; the
result has no empty tokens, and splitting the empty string yields `[]`. -/
def pySplit (s : String) : List String :=
  pySplitAux s.data []

/-- A raw caption entry as returned by the capability
(`entry.start`, `entry.duration`, `entry.text`). -/
structure RawEntry where
  start : Rat
  duration : Rat
  text : String
deriving DecidableEq, Repr

/-- A segment dict `{"start": ..., "duration": ..., "text": ...}` built by the
normalization loop. -/
structure Segment where
  start : Rat
  duration : Rat
  text : String
deriving DecidableEq, Repr

/-- Outcome of invoking the fetch capability on a video id: either an ordered
sequence of entries, or a raised exception with message and class name. -/
inductive FetchOutcome where
  | entries (es : List RawEntry)
  | raised (message : String) (typeName : String)
deriving DecidableEq

/-- The fetch capability: `YouTubeTranscriptApi().fetch`. -/
def Cap : Type := String → FetchOutcome

/-- The three dict shapes `fetch_transcript` can return, field-for-field:
the success record, the capability-unavailable record (which carries no
`videoId` key in the source), and the caught-exception record. -/
inductive TResult where
  | ok (videoId : String) (segments : List Segment) (fullText : String)
      (wordCount : Nat) (language : String) (src : String)
  | importErr (error : String) (errorType : String)
  | fetchErr (videoId : String) (error : String) (errorType : String)
deriving DecidableEq

/-- `result.get("success")` truthiness, as used by the HTTP adapters to pick
the status code. -/
def TResult.successFlag : TResult → Bool
  | .ok .. => true
  | _ => false

namespace Api

/-- `src/api/transcript.py` `fetch_transcript`.  `hasTranscriptApi` is the
module-level `HAS_TRANSCRIPT_API` flag set by the import try/except. -/
def fetch_transcript (hasTranscriptApi : Bool) (video_id : String) (cap : Cap) :
    TResult :=
  if !hasTranscriptApi then
    .importErr "youtube-transcript-api not installed" "ImportError"
  else
    match cap video_id with
    | .entries transcript =>
      let segments := transcript.map (fun e => Segment.mk e.start e.duration e.text)
      let full_text := String.intercalate " " (segments.map Segment.text)
      let word_count := (pySplit full_text).length
      .ok video_id segments full_text word_count "en" "youtube_auto"
    | .raised m t => .fetchErr video_id m t

end Api

namespace Scripts

/-- `src/scripts/fetch-transcript.py` `fetch_transcript` (no availability
guard: the library import is unconditional at module top). -/
def fetch_transcript (video_id : String) (cap : Cap) : TResult :=
  match cap video_id with
  | .entries transcript =>
    let segments := transcript.map (fun e => Segment.mk e.start e.duration e.text)
    let full_text := String.intercalate " " (segments.map Segment.text)
    let word_count := (pySplit full_text).length
    .ok video_id segments full_text word_count "en" "youtube_auto"
  | .raised m t => .fetchErr video_id m t

end Scripts

/-- A response body dict before serialization: either a normalization result,
or the bare `{"success": False, "error": msg}` dict the adapters emit for a
missing identifier (also the CLI's no-argument dict). -/
inductive BodyVal where
  | result (r : TResult)
  | missingId (error : String)
deriving DecidableEq

/-- Whether the body is a successful normalization record. -/
def BodyVal.isSuccess : BodyVal → Bool
  | .result r => r.successFlag
  | .missingId _ => false

/-- First-binding lookup in an association list, modelling `dict.get(k)` /
`request.args.get(k)` (Python dict keys are unique, so first binding is the
binding). -/
def lookupA (d : List (String × String)) (k : String) : Option String :=
  (d.find? (fun p => p.1 == k)).map Prod.snd

/-- Lookup in a `parse_qs` result: `params.get(k, [None])[0]`.  `parse_qs`
maps each present key to a non-empty list of values (blank values are dropped
before that), so the empty-list case cannot arise from it; we return `none`
there as well. -/
def lookupQS (params : List (String × List String)) (k : String) :
    Option String :=
  match params.find? (fun p => p.1 == k) with
  | some (_, v :: _) => some v
  | some (_, []) => none
  | none => none

/-- An HTTP response as the serverless handler builds it: status code, whether
the `Access-Control-Allow-Origin: *` header is sent (the missing-id branch
does not send it), and the JSON body dict. -/
structure HttpResp where
  status : Nat
  cors : Bool
  body : BodyVal
deriving DecidableEq

namespace Api

/-- `handler.do_GET` of `src/api/transcript.py`, after URL parsing: `params`
is the `parse_qs` result.  Python's `if not video_id:` is true for both `None`
and the empty string, split here into the `none` and `isEmpty` cases. -/
def do_GET (hasTranscriptApi : Bool) (params : List (String × List String))
    (cap : Cap) : HttpResp :=
  match lookupQS params "videoId" with
  | none => ⟨400, false, .missingId "videoId parameter required"⟩
  | some video_id =>
    if video_id.isEmpty then ⟨400, false, .missingId "videoId parameter required"⟩
    else
      let result := fetch_transcript hasTranscriptApi video_id cap
      ⟨if result.successFlag then 200 else 400, true, .result result⟩

/-- `handler.do_POST` of `src/api/transcript.py`.  `body` is the decoded
request body; `parsed` is the outcome of `json.loads(body)` restricted to
JSON objects with string values (`some d` = parsed object, `none` =
`JSONDecodeError`; valid JSON that is not a string-valued object is outside
this model and touched by no claim).  The source computes
`data = json.loads(body) if body else {}` with `except JSONDecodeError:
data = {}`. -/
def do_POST (hasTranscriptApi : Bool) (body : String)
    (parsed : Option (List (String × String))) (cap : Cap) : HttpResp :=
  let data : List (String × String) :=
    if body.isEmpty then [] else
      match parsed with
      | some d => d
      | none => []
  match lookupA data "videoId" with
  | none => ⟨400, false, .missingId "videoId required in request body"⟩
  | some video_id =>
    if video_id.isEmpty then
      ⟨400, false, .missingId "videoId required in request body"⟩
    else
      let result := fetch_transcript hasTranscriptApi video_id cap
      ⟨if result.successFlag then 200 else 400, true, .result result⟩

end Api

/-- HTTP method of a Flask request to `/transcript`. -/
inductive Method where
  | get
  | post
deriving DecidableEq

namespace Service

/-- `get_transcript` of `src/transcript-service/app.py`: `args` is the query
dict, `jsonBody` the outcome of `request.get_json()` (`none` = no JSON body,
folded to `{}` by `or {}`), `cap` the capability.  Returns status code and
body dict; CORS and content-type headers are added globally by `CORS(app)` /
`jsonify` outside this route's code.  Python's `if not video_id:` covers
`None` and `""`, split into the `none` and `isEmpty` cases. -/
def get_transcript (method : Method) (args : List (String × String))
    (jsonBody : Option (List (String × String))) (cap : Cap) :
    Nat × BodyVal :=
  let video_id : Option String :=
    match method with
    | .post =>
      lookupA (match jsonBody with | some d => d | none => []) "videoId"
    | .get => lookupA args "videoId"
  match video_id with
  | none => (400, .missingId "videoId parameter required")
  | some v =>
    if v.isEmpty then (400, .missingId "videoId parameter required")
    else
      match cap v with
      | .entries transcript =>
        let segments := transcript.map (fun e => Segment.mk e.start e.duration e.text)
        let full_text := String.intercalate " " (segments.map Segment.text)
        let word_count := (pySplit full_text).length
        (200, .result (.ok v segments full_text word_count "en" "youtube_auto"))
      | .raised m t => (400, .result (.fetchErr v m t))

end Service

/-- Hexadecimal digit character (lowercase, as `json.dumps` emits). -/
def hexDigit (n : Nat) : Char :=
  if n < 10 then Char.ofNat (48 + n) else Char.ofNat (87 + n)

/-- Four-digit hexadecimal rendering for a `\uXXXX` escape. -/
def hex4 (n : Nat) : String :=
  String.mk [hexDigit (n / 4096 % 16), hexDigit (n / 256 % 16),
    hexDigit (n / 16 % 16), hexDigit (n % 16)]

/-- `json.dumps` escaping of one character (default `ensure_ascii=True`:
non-ASCII becomes `\uXXXX`, non-BMP a surrogate pair). -/
def jsonEscapeChar (c : Char) : String :=
  if c == '\"' then "\\\""
  else if c == '\\' then "\\\\"
  else if c == '\n' then "\\n"
  else if c == '\r' then "\\r"
  else if c == '\t' then "\\t"
  else if c.toNat == 8 then "\\b"
  else if c.toNat == 12 then "\\f"
  else if c.toNat < 32 then "\\u" ++ hex4 c.toNat
  else if c.toNat < 127 then String.singleton c
  else if c.toNat ≤ 65535 then "\\u" ++ hex4 c.toNat
  else
    "\\u" ++ hex4 (55296 + (c.toNat - 65536) / 1024) ++
      "\\u" ++ hex4 (56320 + (c.toNat - 65536) % 1024)

/-- `json.dumps` of a string value. -/
def jsonStr (s : String) : String :=
  "\"" ++ String.join (s.data.map jsonEscapeChar) ++ "\""

/-- `json.dumps` of one segment dict, keys in insertion order, default
separators; `f` renders the float fields. -/
def jsonOfSegment (f : Rat → String) (s : Segment) : String :=
  "\x7b\"start\": " ++ f s.start ++ ", \"duration\": " ++ f s.duration ++
    ", \"text\": " ++ jsonStr s.text ++ "\x7d"

/-- `json.dumps` of a normalization result dict, keys in the source dict
literals' insertion order, default separators. -/
def jsonOfResult (f : Rat → String) : TResult → String
  | .ok v segs ft wc lang src =>
    "\x7b\"success\": true, \"videoId\": " ++ jsonStr v ++
      ", \"segments\": [" ++
      String.intercalate ", " (segs.map (jsonOfSegment f)) ++
      "], \"fullText\": " ++ jsonStr ft ++
      ", \"wordCount\": " ++ toString wc ++
      ", \"language\": " ++ jsonStr lang ++
      ", \"source\": " ++ jsonStr src ++ "\x7d"
  | .importErr e t =>
    "\x7b\"success\": false, \"error\": " ++ jsonStr e ++
      ", \"errorType\": " ++ jsonStr t ++ "\x7d"
  | .fetchErr v e t =>
    "\x7b\"success\": false, \"videoId\": " ++ jsonStr v ++
      ", \"error\": " ++ jsonStr e ++ ", \"errorType\": " ++ jsonStr t ++ "\x7d"

/-- `json.dumps` of a response body dict. -/
def jsonOfBody (f : Rat → String) : BodyVal → String
  | .result r => jsonOfResult f r
  | .missingId e =>
    "\x7b\"success\": false, \"error\": " ++ jsonStr e ++ "\x7d"

namespace Scripts

/-- The `__main__` block of `src/scripts/fetch-transcript.py`: `argv` is the
full `sys.argv` (program name first).  Returns the line printed to stdout and
the process exit code (1 via `sys.exit(1)`, otherwise 0 on normal
termination). -/
def cliMain (f : Rat → String) (argv : List String) (cap : Cap) :
    String × Nat :=
  match argv with
  | _ :: vid :: _ => (jsonOfResult f (fetch_transcript vid cap), 0)
  | _ => (jsonOfBody f (.missingId "Video ID required"), 1)

end Scripts

/-- C1: for every non-empty `videoId` and every capability returning an
ordered list of entries for it, `fetch_transcript` returns the success record
with the same `videoId`, the entries mapped field-for-field to segments in
order (hence exactly N of them), `fullText` the texts joined by a single
space, and `wordCount` the number of non-empty whitespace-delimited tokens of
`fullText`; for N = 0, `fullText` is `""` and `wordCount` is `0`. -/
theorem fetch_transcript_success_shape (videoId : String) (_h : videoId ≠ "")
    (cap : Cap) (es : List RawEntry) (hcap : cap videoId = .entries es) :
    Api.fetch_transcript true videoId cap =
      .ok videoId (es.map fun e => Segment.mk e.start e.duration e.text)
        (String.intercalate " " (es.map RawEntry.text))
        (pySplit (String.intercalate " " (es.map RawEntry.text))).length
        "en" "youtube_auto"
    ∧ (es.map fun e => Segment.mk e.start e.duration e.text).length = es.length
    ∧ (es = [] →
        String.intercalate " " (es.map RawEntry.text) = ""
        ∧ (pySplit (String.intercalate " " (es.map RawEntry.text))).length = 0) := by
  refine ⟨?_, by simp, ?_⟩
  · simp only [Api.fetch_transcript, hcap, Bool.not_true, Bool.false_eq_true,
      if_false, List.map_map]
    rfl
  · rintro rfl
    exact ⟨rfl, by decide⟩

/-- Witness for C1 at a concrete input. -/
theorem fetch_transcript_success_shape_witness :
    Api.fetch_transcript true "abc123"
        (fun _ => .entries [⟨0, 2, "Hello"⟩, ⟨2, 1, "world"⟩]) =
      .ok "abc123" [⟨0, 2, "Hello"⟩, ⟨2, 1, "world"⟩] "Hello world" 2
        "en" "youtube_auto" := by
  have h := fetch_transcript_success_shape "abc123" (by decide)
    (fun _ => .entries [⟨0, 2, "Hello"⟩, ⟨2, 1, "world"⟩])
    [⟨0, 2, "Hello"⟩, ⟨2, 1, "world"⟩] rfl
  exact h.1.trans (by decide)

/-- C2: if the capability raises an exception with message `msg` and class
name `ty` for the given `videoId`, normalization returns the failure record
with `success:false`, `error = msg`, `errorType = ty` and the input
`videoId`, as a value (both the serverless and the CLI copy of
`fetch_transcript`; the functions are total, so no failure escapes as a
crash). -/
theorem fetch_transcript_error_mapping (videoId : String) (cap : Cap)
    (msg ty : String) (hcap : cap videoId = .raised msg ty) :
    Api.fetch_transcript true videoId cap = .fetchErr videoId msg ty
    ∧ Scripts.fetch_transcript videoId cap = .fetchErr videoId msg ty := by
  constructor <;> simp [Api.fetch_transcript, Scripts.fetch_transcript, hcap]

/-- Witness for C2 at a concrete input. -/
theorem fetch_transcript_error_mapping_witness :
    Api.fetch_transcript true "v1" (fun _ => .raised "boom" "ValueError") =
      .fetchErr "v1" "boom" "ValueError"
    ∧ Scripts.fetch_transcript "v1" (fun _ => .raised "boom" "ValueError") =
      .fetchErr "v1" "boom" "ValueError" :=
  fetch_transcript_error_mapping "v1" (fun _ => .raised "boom" "ValueError")
    "boom" "ValueError" rfl

/-- C3: with the capability unavailable (`HAS_TRANSCRIPT_API = False`),
`fetch_transcript` returns `success:false` with `errorType "ImportError"` and
the fixed message, and the result is independent of the capability — it is
never invoked. -/
theorem fetch_transcript_unavailable (videoId : String) (cap cap' : Cap) :
    Api.fetch_transcript false videoId cap =
      .importErr "youtube-transcript-api not installed" "ImportError"
    ∧ Api.fetch_transcript false videoId cap =
      Api.fetch_transcript false videoId cap' :=
  ⟨rfl, rfl⟩

/-- C4: whenever `fetch_transcript` returns a success record — whatever the
`videoId` and the capability's entries — its `language` field is the fixed
string `"en"` and its `source` field the fixed string `"youtube_auto"`. -/
theorem success_fixed_language_source (hasApi : Bool) (videoId : String)
    (cap : Cap) (v : String) (segs : List Segment) (ft : String) (wc : Nat)
    (lang src : String)
    (h : Api.fetch_transcript hasApi videoId cap = .ok v segs ft wc lang src) :
    lang = "en" ∧ src = "youtube_auto" := by
  cases hasApi with
  | false => simp [Api.fetch_transcript] at h
  | true =>
    rw [Api.fetch_transcript] at h
    cases hc : cap videoId <;> rw [hc] at h <;> simp at h
    exact ⟨h.2.2.2.2.1.symm, h.2.2.2.2.2.symm⟩

/-- Witness for C4 at a concrete input. -/
theorem success_fixed_language_source_witness :
    ("en" : String) = "en" ∧ ("youtube_auto" : String) = "youtube_auto" :=
  success_fixed_language_source true "abc123" (fun _ => .entries [])
    "abc123" [] "" 0 "en" "youtube_auto" (by decide)

/-- C5: normalization is deterministic and depends only on the identifier and
the capability's behaviour: the serialized JSON of two invocations on the
same inputs coincides byte for byte, and replacing the capability by one with
the same input/output behaviour leaves the serialized JSON unchanged.  (The
embedding is a pure function because the source reads no mutable state:
`HAS_TRANSCRIPT_API` is fixed at import time and all other names are
request-local.) -/
theorem normalize_deterministic (f : Rat → String) (hasApi : Bool)
    (videoId : String) (cap cap' : Cap) (h : ∀ x, cap x = cap' x) :
    jsonOfResult f (Api.fetch_transcript hasApi videoId cap)
      = jsonOfResult f (Api.fetch_transcript hasApi videoId cap)
    ∧ jsonOfResult f (Api.fetch_transcript hasApi videoId cap)
      = jsonOfResult f (Api.fetch_transcript hasApi videoId cap') := by
  refine ⟨rfl, ?_⟩
  rw [funext h]

/-- Witness for C5 at a concrete input. -/
theorem normalize_deterministic_witness :
    jsonOfResult (fun _ => "0.0")
        (Api.fetch_transcript true "v" (fun _ => .entries []))
      = jsonOfResult (fun _ => "0.0")
        (Api.fetch_transcript true "v" (fun _ => .entries []))
    ∧ jsonOfResult (fun _ => "0.0")
        (Api.fetch_transcript true "v" (fun _ => .entries []))
      = jsonOfResult (fun _ => "0.0")
        (Api.fetch_transcript true "v" (fun _ => .entries ([] ++ []))) :=
  normalize_deterministic (fun _ => "0.0") true "v" (fun _ => .entries [])
    (fun _ => .entries ([] ++ [])) (fun _ => rfl)

/-- C6: the three adapters compute the identical normalization record: the
CLI copy of `fetch_transcript` agrees with the serverless one for every
identifier and capability behaviour, and the web service's inlined
normalization produces the same record (wrapped with its 200/400 status) for
every non-empty identifier.  The CLI and the service import the library
unconditionally, so they only run with the capability available; the
serverless copy is taken at `HAS_TRANSCRIPT_API = True` accordingly. -/
theorem adapters_agree (videoId : String) (cap : Cap) :
    Scripts.fetch_transcript videoId cap = Api.fetch_transcript true videoId cap
    ∧ (videoId ≠ "" →
        Service.get_transcript .get [("videoId", videoId)] none cap =
          ((if (Api.fetch_transcript true videoId cap).successFlag
              then 200 else 400),
            .result (Api.fetch_transcript true videoId cap))) := by
  constructor
  · cases hc : cap videoId <;>
      simp [Scripts.fetch_transcript, Api.fetch_transcript, hc]
  · intro hne
    have hemp : videoId.isEmpty = false := by
      cases he : videoId.isEmpty with
      | false => rfl
      | true => exact absurd ((String.isEmpty_iff videoId).mp he) hne
    cases hc : cap videoId <;>
      simp [Service.get_transcript, lookupA, Api.fetch_transcript, hc, hemp,
        TResult.successFlag]

/-- Witness for C6 at a concrete input. -/
theorem adapters_agree_witness :
    Scripts.fetch_transcript "abc" (fun _ => .entries [⟨0, 1, "hi"⟩])
      = Api.fetch_transcript true "abc" (fun _ => .entries [⟨0, 1, "hi"⟩])
    ∧ Service.get_transcript .get [("videoId", "abc")] none
        (fun _ => .entries [⟨0, 1, "hi"⟩]) =
      ((if (Api.fetch_transcript true "abc"
            (fun _ => .entries [⟨0, 1, "hi"⟩])).successFlag then 200 else 400),
        .result (Api.fetch_transcript true "abc"
          (fun _ => .entries [⟨0, 1, "hi"⟩]))) :=
  ⟨(adapters_agree "abc" (fun _ => .entries [⟨0, 1, "hi"⟩])).1,
    (adapters_agree "abc" (fun _ => .entries [⟨0, 1, "hi"⟩])).2 (by decide)⟩

/-- C7: a GET to the service's `/transcript` whose `videoId` query parameter
is absent or empty yields status 400 with exactly the dict
`{"success": False, "error": "videoId parameter required"}`, for every
capability — so the normalization is never invoked. -/
theorem service_missing_videoId_400 (args : List (String × String))
    (jsonBody : Option (List (String × String))) (cap : Cap)
    (h : lookupA args "videoId" = none ∨ lookupA args "videoId" = some "") :
    Service.get_transcript .get args jsonBody cap =
      (400, .missingId "videoId parameter required") := by
  have he : ("" : String).isEmpty = true := rfl
  rcases h with h | h <;> simp [Service.get_transcript, h, he]

/-- Witness for C7 at a concrete input. -/
theorem service_missing_videoId_400_witness :
    Service.get_transcript .get [] none (fun _ => .entries []) =
      (400, .missingId "videoId parameter required") :=
  service_missing_videoId_400 [] none (fun _ => .entries []) (Or.inl rfl)

/-- C8: on the HTTP adapters' transcript endpoints every response status is
200 or 400, and it is 200 exactly when the body is a successful normalization
record — missing-identifier failures and capability failures both map to
400, undistinguished. -/
theorem http_status_policy (hasApi : Bool)
    (params : List (String × List String)) (cap : Cap) (method : Method)
    (args : List (String × String))
    (jsonBody : Option (List (String × String))) :
    ((Api.do_GET hasApi params cap).status = 200
      ∨ (Api.do_GET hasApi params cap).status = 400)
    ∧ ((Api.do_GET hasApi params cap).status = 200
        ↔ (Api.do_GET hasApi params cap).body.isSuccess = true)
    ∧ ((Service.get_transcript method args jsonBody cap).1 = 200
      ∨ (Service.get_transcript method args jsonBody cap).1 = 400)
    ∧ ((Service.get_transcript method args jsonBody cap).1 = 200
        ↔ (Service.get_transcript method args jsonBody cap).2.isSuccess = true) := by
  have hget : ((Api.do_GET hasApi params cap).status = 200
      ∨ (Api.do_GET hasApi params cap).status = 400)
      ∧ ((Api.do_GET hasApi params cap).status = 200
        ↔ (Api.do_GET hasApi params cap).body.isSuccess = true) := by
    unfold Api.do_GET
    cases lookupQS params "videoId" with
    | none => simp [BodyVal.isSuccess]
    | some v =>
      cases hv : v.isEmpty with
      | true => simp [hv, BodyVal.isSuccess]
      | false =>
        cases hs : (Api.fetch_transcript hasApi v cap).successFlag <;>
          simp [hv, hs, BodyVal.isSuccess]
  have hsvc : ((Service.get_transcript method args jsonBody cap).1 = 200
      ∨ (Service.get_transcript method args jsonBody cap).1 = 400)
      ∧ ((Service.get_transcript method args jsonBody cap).1 = 200
        ↔ (Service.get_transcript method args jsonBody cap).2.isSuccess = true) := by
    unfold Service.get_transcript
    cases (match method with
      | .post => lookupA (match jsonBody with | some d => d | none => []) "videoId"
      | .get => lookupA args "videoId") with
    | none => simp [BodyVal.isSuccess]
    | some v =>
      cases hv : v.isEmpty with
      | true => simp [hv, BodyVal.isSuccess]
      | false =>
        cases hc : cap v <;>
          simp [hv, hc, BodyVal.isSuccess, TResult.successFlag]
  exact ⟨hget.1, hget.2, hsvc.1, hsvc.2⟩

/-- C9: a POST to the serverless adapter whose body is empty or fails to
parse as JSON is handled exactly like one whose parsed body lacks `videoId`:
status 400 with the `success:false` missing-identifier dict, for every
capability — the normalization is never invoked. -/
theorem do_POST_bad_body (hasApi : Bool) (body : String)
    (parsed : Option (List (String × String))) (cap : Cap)
    (h : body = "" ∨ parsed = none) :
    Api.do_POST hasApi body parsed cap =
      ⟨400, false, .missingId "videoId required in request body"⟩
    ∧ Api.do_POST hasApi body parsed cap =
      Api.do_POST hasApi "\x7b\x7d" (some []) cap := by
  have hmain : Api.do_POST hasApi body parsed cap =
      ⟨400, false, .missingId "videoId required in request body"⟩ := by
    have he : ("" : String).isEmpty = true := rfl
    rcases h with h | h <;> subst h <;> simp [Api.do_POST, lookupA, he]
  exact ⟨hmain, hmain.trans (by simp [Api.do_POST, lookupA])⟩

/-- Witness for C9 at a concrete input. -/
theorem do_POST_bad_body_witness :
    Api.do_POST true "" (some [("x", "y")]) (fun _ => .entries []) =
      ⟨400, false, .missingId "videoId required in request body"⟩
    ∧ Api.do_POST true "" (some [("x", "y")]) (fun _ => .entries []) =
      Api.do_POST true "\x7b\x7d" (some []) (fun _ => .entries []) :=
  do_POST_bad_body true "" (some [("x", "y")]) (fun _ => .entries [])
    (Or.inl rfl)

/-- C10: the CLI exits with code 1 exactly when fewer than two `argv` entries
are present (no video id supplied); for every supplied id it prints the
normalization result as JSON and exits 0, also when the capability fails and
the printed record has `success:false`. -/
theorem cli_exit_code_policy (f : Rat → String) (argv : List String)
    (cap : Cap) :
    ((Scripts.cliMain f argv cap).2 = 1 ↔ argv.length < 2)
    ∧ (∀ prog vid rest, Scripts.cliMain f (prog :: vid :: rest) cap =
        (jsonOfResult f (Scripts.fetch_transcript vid cap), 0)) := by
  constructor
  · match argv with
    | [] => simp [Scripts.cliMain]
    | [_] => simp [Scripts.cliMain]
    | _ :: _ :: t => simp [Scripts.cliMain]
  · intro prog vid rest
    rfl

end DisruptionIntel
